import Mathlib

/-!
Shallow embedding of the `fastapi_ecommerce` backend core
(`src/app/routers/{cart,orders,categories,reviews,users}.py` and
`src/app/core/security.py`).

Conventions of the embedding:
* The database is an explicit state value (`DB`) holding the rows of each
  table as a list.  SQL point lookups become `List.find?`, filtered scans
  become `List.filter`, `ORDER BY id` becomes an insertion sort on the id.
* `Decimal` (`Numeric(10,2)`) prices and amounts are embedded as exact
  rationals (`Rat`); integer columns as `Int`, primary keys as `Nat`.
* Each HTTP handler becomes a pure function returning
  `Except ApiError (...)`.  Raising `HTTPException` before `db.commit()`
  leaves the database untouched, so a handler that fails returns only the
  error and the caller keeps the pre-state (transaction rollback).
* The JWT primitive (out of scope per the spec) is modelled symbolically:
  a token is its claim set plus the key it was signed with; decoding with
  a key succeeds iff the keys match, then checks expiry.
-/

/-- Row of the `products` table (`app/models/product.py`).  `price` is a
nullable-in-practice decimal (the handlers guard against `None`), `stock`
an integer, `rating` the derived mean review grade. -/
structure Product where
  id : Nat
  name : String
  price : Option Rat
  stock : Int
  is_active : Bool
  category_id : Nat
  seller_id : Nat
  rating : Rat
deriving Repr, DecidableEq

/-- Row of the `cart_items` table: one (user, product, quantity) triple. -/
structure CartItem where
  id : Nat
  user_id : Nat
  product_id : Nat
  quantity : Int
deriving Repr, DecidableEq

/-- Row of the `order_items` table: the snapshot taken at checkout. -/
structure OrderItem where
  product_id : Nat
  quantity : Int
  unit_price : Rat
  total_price : Rat
deriving Repr, DecidableEq

/-- Row of the `orders` table, with its owned items inlined. -/
structure Order where
  id : Nat
  user_id : Nat
  total_amount : Rat
  items : List OrderItem
deriving Repr, DecidableEq

/-- Row of the `users` table. -/
structure User where
  id : Nat
  email : String
  role : String
  is_active : Bool
deriving Repr, DecidableEq

/-- Row of the `categories` table. -/
structure Category where
  id : Nat
  name : String
  parent_id : Option Nat
  is_active : Bool
deriving Repr, DecidableEq

/-- Row of the `reviews` table. -/
structure Review where
  id : Nat
  user_id : Nat
  product_id : Nat
  grade : Int
  comment : Option String
  is_active : Bool
deriving Repr, DecidableEq

/-- The database state: one list of rows per table, plus the next free
autoincrement id (shared across tables for simplicity). -/
structure DB where
  users : List User
  products : List Product
  categories : List Category
  cart_items : List CartItem
  orders : List Order
  reviews : List Review
  next_id : Nat
deriving Repr, DecidableEq

/-- The error taxonomy of the handlers: each constructor is one HTTP
status used by the code, carrying the `detail` string. -/
inductive ApiError where
  | badRequest (detail : String)
  | notFound (detail : String)
  | unauthorized (detail : String)
  | forbidden (detail : String)
  | unprocessable (detail : String)
  | internal (detail : String)
deriving Repr, DecidableEq

/-- Embeds the `select(ProductModel).where(ProductModel.id == pid)` point lookup. -/
def lookupProduct (ps : List Product) (pid : Nat) : Option Product :=
  ps.find? (fun p => p.id == pid)

/-- Insert a cart row into a list sorted by ascending row id. -/
def insertById (x : CartItem) : List CartItem → List CartItem
  | [] => [x]
  | y :: ys => if x.id ≤ y.id then x :: y :: ys else y :: insertById x ys

/-- Sort cart rows by ascending row id (`ORDER BY cart_items.id`). -/
def sortById : List CartItem → List CartItem
  | [] => []
  | x :: xs => insertById x (sortById xs)

/-- The cart query shared by `get_cart` and `checkout_order`:
all cart rows of the user, ordered by row id. -/
def userCart (db : DB) (uid : Nat) : List CartItem :=
  sortById (db.cart_items.filter (fun c => c.user_id == uid))

/-- Embeds `_ensure_product_available` (`cart.py`): is there an active product
with this id? -/
def product_available (db : DB) (pid : Nat) : Bool :=
  (db.products.find? (fun p => p.id == pid && p.is_active)).isSome

/-- Embeds `_get_cart_item` (`cart.py`): first cart row of (user, product). -/
def get_cart_item (db : DB) (uid pid : Nat) : Option CartItem :=
  db.cart_items.find? (fun c => c.user_id == uid && c.product_id == pid)

/-- Embeds `clear_user_cart` (`cart.py`): delete every cart row of the user. -/
def clear_user_cart (db : DB) (uid : Nat) : DB :=
  { db with cart_items := db.cart_items.filter (fun c => !(c.user_id == uid)) }

/-- Embeds the `clear_cart` endpoint (`cart.py`): clears the cart and commits;
always answers 204, never an error. -/
def clear_cart (db : DB) (uid : Nat) : DB :=
  clear_user_cart db uid

/-- Increment the quantity of the first cart row matching (user, product):
the source mutates the single ORM object `_get_cart_item` returned. -/
def bumpFirst (uid pid : Nat) (qty : Int) : List CartItem → List CartItem
  | [] => []
  | c :: cs =>
    if c.user_id == uid && c.product_id == pid then
      { c with quantity := c.quantity + qty } :: cs
    else
      c :: bumpFirst uid pid qty cs

/-- Embeds `add_item_to_cart` (`cart.py`): 404 if the product is missing or
inactive; otherwise increment the existing row or insert a fresh one,
commit, and return the re-fetched row. -/
def add_item_to_cart (db : DB) (uid pid : Nat) (qty : Int) :
    Except ApiError (DB × Option CartItem) :=
  if product_available db pid then
    match get_cart_item db uid pid with
    | some _ =>
      let db' := { db with cart_items := bumpFirst uid pid qty db.cart_items }
      .ok (db', get_cart_item db' uid pid)
    | none =>
      let row : CartItem :=
        { id := db.next_id, user_id := uid, product_id := pid, quantity := qty }
      let db' := { db with cart_items := db.cart_items ++ [row],
                           next_id := db.next_id + 1 }
      .ok (db', get_cart_item db' uid pid)
  else
    .error (.notFound "Product not found or inactive")

/-- All cart rows of (user, product); the schema keeps at most one. -/
def rowsFor (db : DB) (uid pid : Nat) : List CartItem :=
  db.cart_items.filter (fun c => c.user_id == uid && c.product_id == pid)

/-- Decrement the stock of the product with the given id
(`product.stock -= cart_item.quantity` on the identity-mapped ORM row). -/
def decrementStock (ps : List Product) (pid : Nat) (qty : Int) : List Product :=
  ps.map (fun p => if p.id == pid then { p with stock := p.stock - qty } else p)

/-- The validation loop body of `checkout_order` (`orders.py` lines 66-96):
walk the cart rows in order, validating each against the current product
list, snapshotting an `OrderItem` and decrementing stock.  Returns the
snapshots, the accumulated total and the updated products, or the first
validation error. -/
def processCart : List CartItem → List Product →
    Except ApiError (List OrderItem × Rat × List Product)
  | [], ps => .ok ([], 0, ps)
  | ci :: rest, ps =>
    match lookupProduct ps ci.product_id with
    | none =>
      .error (.badRequest
        ("Product " ++ toString ci.product_id ++ " is unavailable"))
    | some p =>
      if !p.is_active then
        .error (.badRequest
          ("Product " ++ toString ci.product_id ++ " is unavailable"))
      else if p.stock < ci.quantity then
        .error (.badRequest
          ("Not enough items of product " ++ p.name ++ " in stock"))
      else
        match p.price with
        | none =>
          .error (.badRequest ("Product " ++ p.name ++ " price is not set"))
        | some unit_price =>
          let total_price := unit_price * (ci.quantity : Rat)
          let oi : OrderItem :=
            { product_id := ci.product_id, quantity := ci.quantity,
              unit_price := unit_price, total_price := total_price }
          match processCart rest (decrementStock ps ci.product_id ci.quantity) with
          | .error e => .error e
          | .ok (ois, total, ps') => .ok (oi :: ois, total_price + total, ps')

/-- Embeds `checkout_order` (`orders.py`): load the user's cart ordered by row id,
fail 400 on an empty cart, run the validation loop, then commit the new
order, the stock decrements and the cart deletion as one unit. -/
def checkout_order (db : DB) (uid : Nat) : Except ApiError (DB × Order) :=
  if (userCart db uid).isEmpty then
    .error (.badRequest "Cart is empty")
  else
    match processCart (userCart db uid) db.products with
    | .error e => .error e
    | .ok (ois, total, ps') =>
      .ok ({ db with
             products := ps',
             orders := db.orders ++
               [{ id := db.next_id, user_id := uid, total_amount := total,
                  items := ois }],
             cart_items := db.cart_items.filter
               (fun c => !(c.user_id == uid)),
             next_id := db.next_id + 1 },
           { id := db.next_id, user_id := uid, total_amount := total,
             items := ois })

/-- The request-level effect of `checkout_order`: an `HTTPException` is
raised before `db.commit()`, so a failed checkout leaves the database in
its pre-state and creates no order. -/
def runCheckout (db : DB) (uid : Nat) : DB × Option Order :=
  match checkout_order db uid with
  | .ok (db', o) => (db', some o)
  | .error _ => (db, none)

/-- The cart view returned by `get_cart` (`cart.py`). -/
structure CartView where
  user_id : Nat
  items : List (Nat × Int × Product)
  total_quantity : Int
  total_price : Rat
deriving Repr, DecidableEq

/-- Embeds `get_cart` (`cart.py`): the user's cart rows ordered by row id, joined
with their products; `total_quantity` sums every row's quantity,
`total_price` sums `quantity * price` over the rows whose product price
is set. -/
def get_cart (db : DB) (uid : Nat) : CartView :=
  let cart := userCart db uid
  { user_id := uid
    items := cart.filterMap (fun ci =>
      (lookupProduct db.products ci.product_id).map
        (fun p => (ci.id, ci.quantity, p)))
    total_quantity := (cart.map (fun ci => ci.quantity)).sum
    total_price :=
      (cart.filterMap (fun ci =>
        (lookupProduct db.products ci.product_id).bind
          (fun p => p.price.map (fun pr => (ci.quantity : Rat) * pr)))).sum }

/-- Embeds `_load_order_with_items` (`orders.py`): point lookup of an order. -/
def load_order_with_items (db : DB) (oid : Nat) : Option Order :=
  db.orders.find? (fun o => o.id == oid)

/-- Embeds `get_order` (`orders.py`): 404 when the order does not exist or does
not belong to the requesting user; the two cases share one error. -/
def get_order (db : DB) (user : User) (oid : Nat) : Except ApiError Order :=
  match load_order_with_items db oid with
  | none => .error (.notFound "Order not found")
  | some o =>
    if !(o.user_id == user.id) then .error (.notFound "Order not found")
    else .ok o

/-- The claim set carried by a JWT issued by this service
(`sub`, `role`, `id`, `exp`, `type`). -/
structure TokenPayload where
  sub : Option String
  role : String
  user_id : Nat
  exp : Nat
  type : String
deriving Repr, DecidableEq

/-- Symbolic JWT: the claim set together with the signing key. -/
structure Token where
  payload : TokenPayload
  key : String
deriving Repr, DecidableEq

/-- The shared signing secret (`app/core/config.py`); its concrete value
is irrelevant, only equality with a token's key matters. -/
def SECRET_KEY : String := "service-secret-key"

/-- Outcome of `jwt.decode`: invalid signature, expired, or the payload. -/
inductive DecodeResult where
  | invalid
  | expired
  | ok (payload : TokenPayload)
deriving Repr, DecidableEq

/-- Symbolic `jwt.decode(token, key, ...)`: signature valid iff the token
was signed with `key`; then the `exp` claim must lie in the future. -/
def jwt_decode (t : Token) (key : String) (now : Nat) : DecodeResult :=
  if !(t.key == key) then .invalid
  else if t.payload.exp ≤ now then .expired
  else .ok t.payload

/-- Embeds `create_access_token` (`security.py`): 30-minute expiry, type access. -/
def create_access_token (sub : String) (role : String) (uid : Nat)
    (now : Nat) : Token :=
  { payload := { sub := some sub, role := role, user_id := uid,
                 exp := now + 30 * 60, type := "access" },
    key := SECRET_KEY }

/-- Embeds `create_refresh_token` (`security.py`): 7-day expiry, type refresh. -/
def create_refresh_token (sub : String) (role : String) (uid : Nat)
    (now : Nat) : Token :=
  { payload := { sub := some sub, role := role, user_id := uid,
                 exp := now + 7 * 24 * 60 * 60, type := "refresh" },
    key := SECRET_KEY }

/-- Embeds the `select(UserModel).where(email == e, is_active == True)` lookup. -/
def findActiveUser (db : DB) (email : String) : Option User :=
  db.users.find? (fun u => u.email == email && u.is_active)

/-- Embeds `get_current_user` (`security.py`): decode the bearer token, require
`type == access` and a `sub` claim, then load the active user by email;
every failure is a 401. -/
def get_current_user (db : DB) (token : Token) (now : Nat) :
    Except ApiError User :=
  match jwt_decode token SECRET_KEY now with
  | .invalid => .error (.unauthorized "Could not validate credentials")
  | .expired => .error (.unauthorized "Token has expired")
  | .ok payload =>
    if !(payload.type == "access") then
      .error (.unauthorized "Could not validate credentials")
    else
      match payload.sub with
      | none => .error (.unauthorized "Could not validate credentials")
      | some email =>
        match findActiveUser db email with
        | none => .error (.unauthorized "Could not validate credentials")
        | some user => .ok user

/-- Embeds `get_refresh_token` (`users.py`): decode the presented token (both
invalid-signature and expired fall into the same `except jwt.PyJWTError`
arm), require a `sub` claim and an active user — the `type` claim is
never inspected — then issue a fresh access token. -/
def get_refresh_token (db : DB) (refresh_token : Token) (now : Nat) :
    Except ApiError Token :=
  match jwt_decode refresh_token SECRET_KEY now with
  | .invalid => .error (.unauthorized "Could not validate refresh token")
  | .expired => .error (.unauthorized "Could not validate refresh token")
  | .ok payload =>
    match payload.sub with
    | none => .error (.unauthorized "Could not validate refresh token")
    | some email =>
      match findActiveUser db email with
      | none => .error (.unauthorized "Could not validate refresh token")
      | some user => .ok (create_access_token user.email user.role user.id now)

/-- Request body of the review endpoints (`schemas/review.py`). -/
structure ReviewCreate where
  product_id : Nat
  comment : Option String
  grade : Int
deriving Repr, DecidableEq

/-- The grades of the currently active reviews of a product
(`select(... ).where(product_id == pid, is_active == True)`). -/
def activeGrades (db : DB) (pid : Nat) : List Int :=
  (db.reviews.filter (fun r => r.product_id == pid && r.is_active)).map
    (fun r => r.grade)

/-- Embeds `select(func.avg(ReviewModel.grade))` over the active reviews of a
product: `none` when no row matches, else the exact mean. -/
def avg_active_grade (db : DB) (pid : Nat) : Option Rat :=
  if (activeGrades db pid).isEmpty then none
  else some (((activeGrades db pid).map (fun g : Int => (g : Rat))).sum /
    ((activeGrades db pid).length : Rat))

/-- Embeds `update_product_rating` (`reviews.py`): store the mean active grade
(`or 0.0` turns SQL NULL into 0.0) on the product row and commit. -/
def update_product_rating (db : DB) (pid : Nat) : DB :=
  { db with products := db.products.map (fun p =>
      if p.id == pid then
        { p with rating := (avg_active_grade db pid).getD 0 }
      else p) }

/-- Embeds `create_review` (`reviews.py`): buyers only; the product must be
active; at most one active review per (user, product); grade in [1,5];
then insert the review, commit, and recompute the product rating. -/
def create_review (db : DB) (user : User) (payload : ReviewCreate) :
    Except ApiError (DB × Review) :=
  if !(user.role == "buyer") then
    .error (.forbidden "Only buyers can leave reviews")
  else
    match db.products.find? (fun p =>
        p.id == payload.product_id && p.is_active) with
    | none => .error (.notFound "Product not found or inactive")
    | some product =>
      match db.reviews.find? (fun r =>
          r.user_id == user.id && r.product_id == payload.product_id &&
          r.is_active) with
      | some _ => .error (.badRequest "You already reviewed this product")
      | none =>
        if !(1 ≤ payload.grade && payload.grade ≤ 5) then
          .error (.unprocessable "Grade should be from 1 to 5")
        else
          let new_review : Review :=
            { id := db.next_id, user_id := user.id,
              product_id := payload.product_id, grade := payload.grade,
              comment := payload.comment, is_active := true }
          let db1 := { db with reviews := db.reviews ++ [new_review],
                               next_id := db.next_id + 1 }
          .ok (update_product_rating db1 product.id, new_review)

/-- Embeds `delete_review` (`reviews.py`): admin only; find the active review,
flip `is_active` off, commit, and recompute the product rating. -/
def delete_review (db : DB) (user : User) (review_id : Nat) :
    Except ApiError DB :=
  if !(user.role == "admin") then
    .error (.forbidden "Only an admin can delete reviews")
  else
    match db.reviews.find? (fun r => r.id == review_id && r.is_active) with
    | none => .error (.notFound "Review not found or inactive")
    | some review =>
      let db1 := { db with reviews := db.reviews.map (fun r =>
          if r.id == review_id && r.is_active then { r with is_active := false }
          else r) }
      .ok (update_product_rating db1 review.product_id)

/-- Request body of the category endpoints (`schemas/category.py`, file
absent from the sources; fields as used by `routers/categories.py`). -/
structure CategoryCreate where
  name : String
  parent_id : Option Nat
deriving Repr, DecidableEq

/-- Embeds `create_category` (`categories.py`): when a parent is given it must
exist and be active (looked up by `CategoryModel.id`); then insert. -/
def create_category (db : DB) (payload : CategoryCreate) :
    Except ApiError (DB × Category) :=
  match payload.parent_id with
  | some pid =>
    match db.categories.find? (fun k => k.id == pid && k.is_active) with
    | none => .error (.notFound "Category parent not found or inactive")
    | some _ =>
      let row : Category := { id := db.next_id, name := payload.name,
                              parent_id := payload.parent_id, is_active := true }
      .ok ({ db with categories := db.categories ++ [row],
                     next_id := db.next_id + 1 }, row)
  | none =>
    let row : Category := { id := db.next_id, name := payload.name,
                            parent_id := none, is_active := true }
    .ok ({ db with categories := db.categories ++ [row],
                   next_id := db.next_id + 1 }, row)

/-- Embeds `update_category` (`categories.py`): the category must be active; when
a parent id is given, the handler looks the "parent" up with
`CategoryModel.parent_id == payload.parent_id` (sic — the filter compares
the *parent_id column*, not the id, exactly as the source does), rejects
when nothing matched, rejects when the found row's id equals the updated
category's id, then writes `name` and `parent_id` and commits. -/
def update_category (db : DB) (category_id : Nat) (payload : CategoryCreate) :
    Except ApiError (DB × Option Category) :=
  match db.categories.find? (fun k => k.id == category_id && k.is_active) with
  | none => .error (.notFound "Category not found or inactive")
  | some _ =>
    let write : Unit → Except ApiError (DB × Option Category) := fun _ =>
      let db' := { db with categories := db.categories.map (fun k =>
          if k.id == category_id then
            { k with name := payload.name, parent_id := payload.parent_id }
          else k) }
      .ok (db', db'.categories.find? (fun k => k.id == category_id))
    match payload.parent_id with
    | some pid =>
      match db.categories.find? (fun k =>
          k.parent_id == some pid && k.is_active) with
      | none => .error (.notFound "Category parent not found or inactive")
      | some parent =>
        if parent.id == category_id then
          .error (.badRequest "Category cannot be its own parent")
        else write ()
    | none => write ()

/-- C4: clearing the cart always succeeds, a second `clearCart` right after
a first one changes nothing, and after the first call the user's cart is
already empty — `clearCart` on an empty cart is a no-op. -/
theorem clear_cart_idempotent (db : DB) (uid : Nat) :
    clear_cart (clear_cart db uid) uid = clear_cart db uid ∧
    userCart (clear_cart db uid) uid = [] := by
  constructor
  · show clear_user_cart (clear_user_cart db uid) uid = clear_user_cart db uid
    unfold clear_user_cart
    simp [List.filter_filter]
  · show userCart (clear_user_cart db uid) uid = []
    unfold userCart clear_user_cart
    simp only [List.filter_filter]
    have : (db.cart_items.filter
        (fun c => c.user_id == uid && !(c.user_id == uid))) = [] := by
      simp
    rw [this]
    rfl

/-- C10: fetching a single order answers 404 both when the order id does
not exist and when the order belongs to a different user; every error of
this endpoint is that same `NotFound`, never a `Forbidden`, and a
returned order always belongs to the requesting user. -/
theorem get_order_not_found_scope (db : DB) (user : User) (oid : Nat) :
    (load_order_with_items db oid = none →
      get_order db user oid = .error (.notFound "Order not found")) ∧
    (∀ o, load_order_with_items db oid = some o → o.user_id ≠ user.id →
      get_order db user oid = .error (.notFound "Order not found")) ∧
    (∀ e, get_order db user oid = .error e → e = .notFound "Order not found") ∧
    (∀ o, get_order db user oid = .ok o → o.user_id = user.id ∧ o ∈ db.orders) := by
  refine ⟨?_, ?_, ?_, ?_⟩
  · intro h
    simp [get_order, h]
  · intro o h hne
    simp [get_order, h, hne]
  · intro e h
    unfold get_order at h
    split at h
    · exact ((Except.error.inj h).symm)
    · split at h
      · exact ((Except.error.inj h).symm)
      · exact absurd h (by simp)
  · intro o h
    unfold get_order at h
    split at h
    · exact absurd h (by simp)
    · rename_i o' ho'
      split at h
      · exact absurd h (by simp)
      · rename_i hid
        have hoo : o' = o := Except.ok.inj h
        subst hoo
        refine ⟨by simpa using hid, ?_⟩
        exact List.mem_of_find?_eq_some ho'

/-- Concrete state for exercising `get_order`: one order owned by user 7. -/
def C10db : DB :=
  { users := [], products := [], categories := [], cart_items := [],
    orders := [{ id := 1, user_id := 7, total_amount := 0, items := [] }],
    reviews := [], next_id := 2 }

/-- The requesting user for the `get_order` scenario; not the owner. -/
def C10user : User :=
  { id := 5, email := "buyer@example.com", role := "buyer", is_active := true }

/-- Witness for C10: order 1 exists but belongs to user 7, order 2 does
not exist; user 5 gets the same 404 for both. -/
theorem get_order_not_found_scope_witness :
    get_order C10db C10user 1 = .error (.notFound "Order not found") ∧
    get_order C10db C10user 2 = .error (.notFound "Order not found") :=
  ⟨(get_order_not_found_scope C10db C10user 1).2.1
      { id := 1, user_id := 7, total_amount := 0, items := [] } rfl (by decide),
   (get_order_not_found_scope C10db C10user 2).1 rfl⟩

/-- A successful active-user lookup returns a stored, active user whose
email is the one searched for. -/
theorem findActiveUser_some {db : DB} {email : String} {u : User}
    (h : findActiveUser db email = some u) :
    u ∈ db.users ∧ u.email = email ∧ u.is_active = true := by
  have hm := List.mem_of_find?_eq_some h
  have hp := List.find?_some h
  simp only [Bool.and_eq_true, beq_iff_eq] at hp
  exact ⟨hm, hp.1, hp.2⟩

/-- C6: `get_current_user` fails with 401 exactly when the signature is
invalid, the token is expired, the `type` claim is not `access`, the
`sub` claim is missing, or no active user carries the subject email;
otherwise it returns that stored active user. -/
theorem get_current_user_spec (db : DB) (t : Token) (now : Nat) :
    ((∃ d, get_current_user db t now = .error (.unauthorized d)) ↔
      (t.key ≠ SECRET_KEY ∨ t.payload.exp ≤ now ∨
        t.payload.type ≠ "access" ∨ t.payload.sub = none ∨
        (∃ email, t.payload.sub = some email ∧
          findActiveUser db email = none))) ∧
    (∀ u, get_current_user db t now = .ok u →
      u ∈ db.users ∧ u.is_active = true ∧ t.payload.sub = some u.email) := by
  by_cases hkey : t.key = SECRET_KEY
  · by_cases hexp : t.payload.exp ≤ now
    · constructor
      · simp [get_current_user, jwt_decode, hkey, hexp]
      · intro u hu
        simp [get_current_user, jwt_decode, hkey, hexp] at hu
    · by_cases htyp : t.payload.type = "access"
      · cases hsub : t.payload.sub with
        | none =>
          constructor
          · simp [get_current_user, jwt_decode, hkey, hexp, htyp, hsub]
          · intro u hu
            simp [get_current_user, jwt_decode, hkey, hexp, htyp, hsub] at hu
        | some email =>
          cases huser : findActiveUser db email with
          | none =>
            constructor
            · simp [get_current_user, jwt_decode, hkey, hexp, htyp, hsub, huser]
            · intro u hu
              simp [get_current_user, jwt_decode, hkey, hexp, htyp, hsub,
                huser] at hu
          | some u0 =>
            constructor
            · simp [get_current_user, jwt_decode, hkey, hexp, htyp, hsub, huser]
            · intro u hu
              simp [get_current_user, jwt_decode, hkey, hexp, htyp, hsub,
                huser] at hu
              subst hu
              obtain ⟨hmem, hemail, hact⟩ := findActiveUser_some huser
              exact ⟨hmem, hact, by rw [hemail]⟩
      · constructor
        · simp [get_current_user, jwt_decode, hkey, hexp, htyp]
        · intro u hu
          simp [get_current_user, jwt_decode, hkey, hexp, htyp] at hu
  · constructor
    · simp [get_current_user, jwt_decode, hkey]
    · intro u hu
      simp [get_current_user, jwt_decode, hkey] at hu

/-- Concrete state for the authentication scenarios: one active buyer. -/
def authDb : DB :=
  { users := [{ id := 1, email := "buyer@shop.io", role := "buyer",
                is_active := true }],
    products := [], categories := [], cart_items := [], orders := [],
    reviews := [], next_id := 2 }

/-- A well-formed access token for the stored buyer, expiring at 1800. -/
def authAccessToken : Token :=
  { payload := { sub := some "buyer@shop.io", role := "buyer", user_id := 1,
                 exp := 1800, type := "access" },
    key := SECRET_KEY }

/-- Witness for C6: at time 0 the access token authenticates and yields
the stored active buyer. -/
theorem get_current_user_spec_witness :
    ({ id := 1, email := "buyer@shop.io", role := "buyer",
       is_active := true } : User) ∈ authDb.users ∧
    ({ id := 1, email := "buyer@shop.io", role := "buyer",
       is_active := true } : User).is_active = true ∧
    authAccessToken.payload.sub =
      some ({ id := 1, email := "buyer@shop.io", role := "buyer",
              is_active := true } : User).email :=
  (get_current_user_spec authDb authAccessToken 0).2
    { id := 1, email := "buyer@shop.io", role := "buyer", is_active := true }
    rfl

/-- C7: the refresh endpoint only demands a valid signature, an unexpired
token, a `sub` claim and an active user — the `type` claim is never
inspected — and then mints a fresh access token for that user. -/
theorem get_refresh_token_ignores_type (db : DB) (t : Token) (now : Nat)
    (email : String) (u : User)
    (hkey : t.key = SECRET_KEY) (hexp : now < t.payload.exp)
    (hsub : t.payload.sub = some email)
    (huser : findActiveUser db email = some u) :
    get_refresh_token db t now =
      .ok (create_access_token u.email u.role u.id now) ∧
    (create_access_token u.email u.role u.id now).payload.type = "access" := by
  have h2 : ¬ (t.payload.exp ≤ now) := by omega
  constructor
  · simp [get_refresh_token, jwt_decode, hkey, h2, hsub, huser]
  · rfl

/-- Witness for C7: a token whose `type` claim is `access` (not
`refresh`) is accepted by the refresh endpoint and mints a new access
token — the type-confusion the spec flags. -/
theorem get_refresh_token_ignores_type_witness :
    authAccessToken.payload.type = "access" ∧
    get_refresh_token authDb authAccessToken 0 =
      .ok (create_access_token "buyer@shop.io" "buyer" 1 0) :=
  ⟨rfl,
   (get_refresh_token_ignores_type authDb authAccessToken 0 "buyer@shop.io"
      { id := 1, email := "buyer@shop.io", role := "buyer", is_active := true }
      rfl (by decide) rfl rfl).1⟩

/-- Lemma: `bumpFirst` walks past a prefix that contains no (user, product)
match and operates on the suffix. -/
theorem bumpFirst_append_of_no_match (uid pid : Nat) (q : Int)
    (l1 l2 : List CartItem)
    (h : ∀ c ∈ l1, (c.user_id == uid && c.product_id == pid) = false) :
    bumpFirst uid pid q (l1 ++ l2) = l1 ++ bumpFirst uid pid q l2 := by
  induction l1 with
  | nil => rfl
  | cons c cs ih =>
    have hc := h c (List.mem_cons_self c cs)
    simp only [List.cons_append, bumpFirst, hc, Bool.false_eq_true,
      if_false, List.cons.injEq, true_and]
    exact ih (fun c' hc' => h c' (List.mem_cons_of_mem _ hc'))


/-- C3: adding an available product twice to a cart that had no row for it
leaves exactly one cart row for (user, product) whose quantity is the sum
of the two requested quantities (the second add increments the row the
first add inserted); adding a missing or inactive product fails 404. -/
theorem add_item_spec (db : DB) (uid pid : Nat) (q1 q2 : Int)
    (hq1 : 1 ≤ q1) (hq2 : 1 ≤ q2) :
    (product_available db pid = true → rowsFor db uid pid = [] →
      ∃ db1 r1 db2,
        add_item_to_cart db uid pid q1 = .ok (db1, r1) ∧
        add_item_to_cart db1 uid pid q2 =
          .ok (db2, some { id := db.next_id, user_id := uid,
                           product_id := pid, quantity := q1 + q2 }) ∧
        rowsFor db2 uid pid =
          [{ id := db.next_id, user_id := uid, product_id := pid,
             quantity := q1 + q2 }]) ∧
    (product_available db pid = false →
      add_item_to_cart db uid pid q1 =
        .error (.notFound "Product not found or inactive")) := by
  constructor
  · intro hav hrows
    unfold rowsFor at hrows
    have hnomatch : ∀ c ∈ db.cart_items,
        (c.user_id == uid && c.product_id == pid) = false := by
      intro c hc
      have := List.filter_eq_nil_iff.mp hrows c hc
      simpa using this
    have hfind : db.cart_items.find?
        (fun c => c.user_id == uid && c.product_id == pid) = none := by
      rw [List.find?_eq_none]
      intro c hc
      simp [hnomatch c hc]
    have hbump : bumpFirst uid pid q2 (db.cart_items ++
        [{ id := db.next_id, user_id := uid, product_id := pid,
           quantity := q1 }]) =
        db.cart_items ++
        [{ id := db.next_id, user_id := uid, product_id := pid,
           quantity := q1 + q2 }] := by
      rw [bumpFirst_append_of_no_match uid pid q2 _ _ hnomatch]
      simp [bumpFirst]
    refine ⟨{ db with
        cart_items := db.cart_items ++
          [{ id := db.next_id, user_id := uid, product_id := pid,
             quantity := q1 }],
        next_id := db.next_id + 1 },
      some { id := db.next_id, user_id := uid, product_id := pid,
             quantity := q1 },
      { db with
        cart_items := db.cart_items ++
          [{ id := db.next_id, user_id := uid, product_id := pid,
             quantity := q1 + q2 }],
        next_id := db.next_id + 1 }, ?_, ?_, ?_⟩
    · simp [add_item_to_cart, get_cart_item, hav, hfind, List.find?_append]
    · simp only [add_item_to_cart, get_cart_item, product_available]
      unfold product_available at hav
      simp only [hav, if_true, List.find?_append, hfind, Option.none_or]
      rw [List.find?_cons_of_pos _ (by simp)]
      simp only [hbump, List.find?_append, hfind, Option.none_or]
      rw [List.find?_cons_of_pos _ (by simp)]
    · unfold rowsFor
      simp [List.filter_append, hrows]
  · intro hav
    simp [add_item_to_cart, hav]

/-- Catalog state for the add-to-cart scenario: one active product. -/
def C3db : DB :=
  { users := [], categories := [], cart_items := [], orders := [],
    reviews := [],
    products := [{ id := 1, name := "widget", price := some 10, stock := 5,
                   is_active := true, category_id := 1, seller_id := 1,
                   rating := 0 }],
    next_id := 1 }

/-- Witness for C3: `addItem(p, 2)` then `addItem(p, 3)` on an empty cart
yields a single cart row with quantity 5, the spec's round-trip. -/
theorem add_item_spec_witness :
    ∃ db1 r1 db2,
      add_item_to_cart C3db 1 1 2 = .ok (db1, r1) ∧
      add_item_to_cart db1 1 1 3 =
        .ok (db2, some { id := 1, user_id := 1, product_id := 1,
                         quantity := 5 }) ∧
      rowsFor db2 1 1 =
        [{ id := 1, user_id := 1, product_id := 1, quantity := 5 }] :=
  (add_item_spec C3db 1 1 2 3 (by decide) (by decide)).1 rfl rfl

/-- The live unit price a cart row sees: the price of the product row it
references, when that product exists and has a price. -/
def live_price (ps : List Product) (ci : CartItem) : Option Rat :=
  (lookupProduct ps ci.product_id).bind (fun p => p.price)

/-- Summing an optional-price `filterMap` equals summing `quantity *
price` over exactly the rows whose price is present. -/
theorem sum_filterMap_price (g : CartItem → Option Rat) (l : List CartItem) :
    (l.filterMap
      (fun ci => (g ci).map (fun pr => (ci.quantity : Rat) * pr))).sum =
    ((l.filter (fun ci => (g ci).isSome)).map
      (fun ci => (ci.quantity : Rat) * (g ci).getD 0)).sum := by
  induction l with
  | nil => rfl
  | cons a l ih =>
    cases h : g a with
    | none => simp [List.filterMap_cons, List.filter_cons, h, ih]
    | some pr => simp [List.filterMap_cons, List.filter_cons, h, ih]

/-- C9: the cart view's `total_quantity` sums the quantity of every cart
row — rows whose product price is unset included — while `total_price`
sums `quantity * live unit price` over exactly the rows whose product
price is set. -/
theorem get_cart_totals (db : DB) (uid : Nat) :
    (get_cart db uid).total_quantity =
      ((userCart db uid).map (fun ci => ci.quantity)).sum ∧
    (get_cart db uid).total_price =
      (((userCart db uid).filter
          (fun ci => (live_price db.products ci).isSome)).map
        (fun ci => (ci.quantity : Rat) *
          (live_price db.products ci).getD 0)).sum := by
  constructor
  · rfl
  · show ((userCart db uid).filterMap (fun ci =>
      (lookupProduct db.products ci.product_id).bind
        (fun p => p.price.map (fun pr => (ci.quantity : Rat) * pr)))).sum = _
    have hfn : ∀ ci : CartItem,
        (lookupProduct db.products ci.product_id).bind
          (fun p => p.price.map (fun pr => (ci.quantity : Rat) * pr)) =
        (live_price db.products ci).map
          (fun pr => (ci.quantity : Rat) * pr) := by
      intro ci
      unfold live_price
      cases lookupProduct db.products ci.product_id <;> simp
    simp only [hfn]
    exact sum_filterMap_price _ _

/-- A successful product point lookup returns a row with the looked-up id. -/
theorem lookupProduct_id {ps : List Product} {x : Nat} {q : Product}
    (h : lookupProduct ps x = some q) : q.id = x := by
  have := List.find?_some h
  simpa using this

/-- Point lookup commutes with an id-preserving row transformation. -/
theorem lookupProduct_map (f : Product → Product) (hf : ∀ p, (f p).id = p.id)
    (ps : List Product) (x : Nat) :
    lookupProduct (ps.map f) x = (lookupProduct ps x).map f := by
  induction ps with
  | nil => rfl
  | cons p ps ih =>
    unfold lookupProduct
    simp only [List.map_cons]
    by_cases h : p.id = x
    · rw [List.find?_cons_of_pos _ (by simp [hf, h]),
        List.find?_cons_of_pos _ (by simp [h])]
      rfl
    · rw [List.find?_cons_of_neg _ (by simp [hf, h]),
        List.find?_cons_of_neg _ (by simp [h])]
      unfold lookupProduct at ih
      exact ih

/-- The rating the spec prescribes: the arithmetic mean of the grades of
the currently active reviews of the product, `0` when there are none. -/
def activeGradesRat (db : DB) (pid : Nat) : List Rat :=
  (db.reviews.filter (fun r => r.product_id == pid && r.is_active)).map
    (fun r => (r.grade : Rat))

/-- The rating the spec prescribes, as a single rational. -/
def meanActiveRating (db : DB) (pid : Nat) : Rat :=
  if (activeGradesRat db pid).length = 0 then 0
  else (activeGradesRat db pid).sum / ((activeGradesRat db pid).length : Rat)

/-- The stored `AVG(grade) or 0.0` equals the spec's mean-of-active-grades
(0 when no active review exists). -/
theorem avg_getD_eq_mean (db : DB) (pid : Nat) :
    (avg_active_grade db pid).getD 0 = meanActiveRating db pid := by
  unfold avg_active_grade meanActiveRating activeGradesRat activeGrades
  cases h : db.reviews.filter (fun r => r.product_id == pid && r.is_active) with
  | nil => simp
  | cons r rs =>
    rw [List.map_map]
    simp only [List.isEmpty_cons, List.length_map, List.length_cons,
      Option.getD_some, Nat.succ_ne_zero, if_false, Bool.false_eq_true]
    rfl

/-- After `update_product_rating` runs, the stored rating of the updated
product equals the spec's mean of the active grades in the resulting
state (the review table is untouched by the update). -/
theorem update_product_rating_correct (db : DB) (pid : Nat) (p' : Product)
    (hp' : lookupProduct (update_product_rating db pid).products pid = some p') :
    p'.rating = meanActiveRating (update_product_rating db pid) pid := by
  have hmean : meanActiveRating (update_product_rating db pid) pid =
      meanActiveRating db pid := rfl
  rw [hmean]
  unfold update_product_rating at hp'
  rw [lookupProduct_map _ (fun p => by by_cases hc : (p.id == pid) <;>
    simp [hc])] at hp'
  rw [Option.map_eq_some'] at hp'
  obtain ⟨q, hq, hfq⟩ := hp'
  have hqid : (q.id == pid) = true := by
    simp [lookupProduct_id hq]
  subst hfq
  simp only [hqid, if_true]
  exact avg_getD_eq_mean db pid

/-- C5: after every successful review creation and every successful
review soft-deletion, the product's stored `rating` equals the arithmetic
mean of the grades of its currently active reviews, and 0 when none
remain. -/
theorem review_rating_recompute :
    (∀ db user payload db' r,
      create_review db user payload = .ok (db', r) →
      ∀ p', lookupProduct db'.products payload.product_id = some p' →
        p'.rating = meanActiveRating db' payload.product_id) ∧
    (∀ db user rid db',
      delete_review db user rid = .ok db' →
      ∀ rv, db.reviews.find? (fun x => x.id == rid && x.is_active) = some rv →
      ∀ p', lookupProduct db'.products rv.product_id = some p' →
        p'.rating = meanActiveRating db' rv.product_id) := by
  constructor
  · intro db user payload db' r h p' hp'
    simp only [create_review] at h
    split at h
    · exact absurd h (by simp)
    · split at h
      · exact absurd h (by simp)
      · rename_i product hproduct
        split at h
        · exact absurd h (by simp)
        · split at h
          · exact absurd h (by simp)
          · simp only [Except.ok.injEq, Prod.mk.injEq] at h
            obtain ⟨hdb, -⟩ := h
            have hpid : product.id = payload.product_id := by
              have h2 := List.find?_some hproduct
              simp only [Bool.and_eq_true, beq_iff_eq] at h2
              exact h2.1
            subst hdb
            rw [← hpid] at hp' ⊢
            exact update_product_rating_correct _ _ _ hp'
  · intro db user rid db' h rv hrv p' hp'
    simp only [delete_review] at h
    split at h
    · exact absurd h (by simp)
    · split at h
      · exact absurd h (by simp)
      · rename_i review hreview
        rw [hrv] at hreview
        have hrv_eq : rv = review := Option.some.inj hreview
        subst hrv_eq
        simp only [Except.ok.injEq] at h
        subst h
        exact update_product_rating_correct _ _ _ hp'

/-- Review scenario state: product 1 with two active reviews, grades 4
and 2, and an admin able to soft-delete. -/
def C5db : DB :=
  { users := [{ id := 1, email := "admin@shop.io", role := "admin",
                is_active := true }],
    products := [{ id := 1, name := "widget", price := some 10, stock := 5,
                   is_active := true, category_id := 1, seller_id := 2,
                   rating := 3 }],
    categories := [], cart_items := [], orders := [],
    reviews := [{ id := 10, user_id := 3, product_id := 1, grade := 4,
                  comment := none, is_active := true },
                { id := 11, user_id := 4, product_id := 1, grade := 2,
                  comment := none, is_active := true }],
    next_id := 12 }

/-- The admin performing the soft-deletion in the review scenario. -/
def C5admin : User :=
  { id := 1, email := "admin@shop.io", role := "admin", is_active := true }

/-- The state after the admin soft-deletes the grade-4 review. -/
def C5db' : DB :=
  match delete_review C5db C5admin 10 with
  | .ok d => d
  | .error _ => C5db

/-- Evaluating the soft-delete: review 10 flips inactive and the stored
product rating becomes 2, the mean of the remaining active grades. -/
theorem C5db'_eq : C5db' =
    { users := [{ id := 1, email := "admin@shop.io", role := "admin",
                  is_active := true }],
      products := [{ id := 1, name := "widget", price := some 10, stock := 5,
                     is_active := true, category_id := 1, seller_id := 2,
                     rating := 2 }],
      categories := [], cart_items := [], orders := [],
      reviews := [{ id := 10, user_id := 3, product_id := 1, grade := 4,
                    comment := none, is_active := false },
                  { id := 11, user_id := 4, product_id := 1, grade := 2,
                    comment := none, is_active := true }],
      next_id := 12 } := by
  unfold C5db' delete_review C5db C5admin
  norm_num [update_product_rating, avg_active_grade, activeGrades,
    List.find?, List.filter]

/-- Witness for C5: soft-deleting the grade-4 review of a product rated
by grades [4, 2] leaves the stored rating at 2, the mean of the
remaining active grades. -/
theorem review_rating_recompute_witness :
    lookupProduct C5db'.products 1 =
      some { id := 1, name := "widget", price := some 10, stock := 5,
             is_active := true, category_id := 1, seller_id := 2,
             rating := 2 } ∧
    ({ id := 1, name := "widget", price := some 10, stock := 5,
       is_active := true, category_id := 1, seller_id := 2,
       rating := 2 } : Product).rating = meanActiveRating C5db' 1 :=
  have hlp : lookupProduct C5db'.products 1 =
      some { id := 1, name := "widget", price := some 10, stock := 5,
             is_active := true, category_id := 1, seller_id := 2,
             rating := 2 } := by
    rw [C5db'_eq]
    rfl
  ⟨hlp,
   (review_rating_recompute.2 C5db C5admin 10 C5db' rfl
      { id := 10, user_id := 3, product_id := 1, grade := 4,
        comment := none, is_active := true } rfl
      { id := 1, name := "widget", price := some 10, stock := 5,
        is_active := true, category_id := 1, seller_id := 2,
        rating := 2 } hlp)⟩

/-- Category state exposing the parent-lookup slip: category 1 is active
with no parent, category 2 is an active child of category 1. -/
def C8db : DB :=
  { users := [], products := [],
    categories := [{ id := 1, name := "root", parent_id := none,
                     is_active := true },
                   { id := 2, name := "child", parent_id := some 1,
                     is_active := true }],
    cart_items := [], orders := [], reviews := [], next_id := 3 }

/-- The state after asking to make category 1 its own parent. -/
def C8db' : DB :=
  match update_category C8db 1 { name := "root", parent_id := some 1 } with
  | .ok (d, _) => d
  | .error _ => C8db

/-- C8, the divergence: `update_category`'s parent lookup filters on the
`parent_id` column instead of `id`, so the request `parent_id := 1` for
category 1 finds child 2, passes the self-parent guard (2 ≠ 1), and the
commit leaves category 1 recorded as its own parent — the invariant the
spec states (and the handler's own error messages intend) is violated. -/
theorem update_category_accepts_self_parent :
    update_category C8db 1 { name := "root", parent_id := some 1 } =
      .ok (C8db', some { id := 1, name := "root", parent_id := some 1,
                         is_active := true }) ∧
    ∃ k ∈ C8db'.categories, k.parent_id = some k.id :=
  ⟨rfl, by decide⟩

/-- The per-row validation of the checkout loop, as a predicate: the
referenced product exists, is active, has enough stock, and has a price. -/
def cartItemOK (ps : List Product) (ci : CartItem) : Bool :=
  match lookupProduct ps ci.product_id with
  | none => false
  | some p =>
    p.is_active && !(decide (p.stock < ci.quantity)) && p.price.isSome

/-- The `OrderItem` snapshot a cart row yields against a product list,
when its product exists and has a price. -/
def cartLine (ps : List Product) (ci : CartItem) : Option OrderItem :=
  (lookupProduct ps ci.product_id).bind (fun p =>
    p.price.map (fun pr =>
      { product_id := ci.product_id, quantity := ci.quantity,
        unit_price := pr, total_price := pr * (ci.quantity : Rat) }))

/-- Lemma: `decrementStock` preserves every row's id. -/
theorem decrementStock_id (pid : Nat) (q : Int) (p : Product) :
    (if p.id == pid then { p with stock := p.stock - q } else p).id = p.id := by
  by_cases hc : (p.id == pid) <;> simp [hc]

/-- Decrementing one product leaves lookups of other ids unchanged. -/
theorem lookup_decrementStock_ne {ps : List Product} {pid x : Nat} (q : Int)
    (h : x ≠ pid) :
    lookupProduct (decrementStock ps pid q) x = lookupProduct ps x := by
  unfold decrementStock
  rw [lookupProduct_map _ (decrementStock_id pid q)]
  cases hl : lookupProduct ps x with
  | none => rfl
  | some p =>
    have hpid : p.id = x := lookupProduct_id hl
    simp [hpid, h]

/-- Looking the decremented product up shows exactly the reduced stock. -/
theorem lookup_decrementStock_eq (ps : List Product) (pid : Nat) (q : Int) :
    lookupProduct (decrementStock ps pid q) pid =
      (lookupProduct ps pid).map
        (fun p => { p with stock := p.stock - q }) := by
  unfold decrementStock
  rw [lookupProduct_map _ (decrementStock_id pid q)]
  cases hl : lookupProduct ps pid with
  | none => rfl
  | some p =>
    have hpid : p.id = pid := lookupProduct_id hl
    simp [hpid]

/-- Validation of a row is unaffected by decrementing another product. -/
theorem cartItemOK_decrement_ne {ps : List Product} {pid : Nat} {q : Int}
    {ci : CartItem} (h : ci.product_id ≠ pid) :
    cartItemOK (decrementStock ps pid q) ci = cartItemOK ps ci := by
  unfold cartItemOK
  rw [lookup_decrementStock_ne q h]

/-- The snapshot of a row is unaffected by decrementing another product. -/
theorem cartLine_decrement_ne {ps : List Product} {pid : Nat} {q : Int}
    {ci : CartItem} (h : ci.product_id ≠ pid) :
    cartLine (decrementStock ps pid q) ci = cartLine ps ci := by
  unfold cartLine
  rw [lookup_decrementStock_ne q h]

/-- A row that already fails validation still fails after any stock
decrement by a non-negative quantity (stock only shrinks; existence,
activity and price are untouched). -/
theorem cartItemOK_decrement_false {ps : List Product} {pid : Nat} {q : Int}
    {ci : CartItem} (hq : 0 ≤ q) (h : cartItemOK ps ci = false) :
    cartItemOK (decrementStock ps pid q) ci = false := by
  by_cases hne : ci.product_id = pid
  · unfold cartItemOK at h ⊢
    rw [hne, lookup_decrementStock_eq]
    rw [hne] at h
    cases hl : lookupProduct ps pid with
    | none => rfl
    | some p =>
      rw [hl] at h
      simp only [Option.map_some']
      by_cases hact : p.is_active = true
      · by_cases hpr : p.price.isSome = true
        · have hstk : p.stock < ci.quantity := by
            by_contra hc
            simp [hact, hpr, hc] at h
          have hstk' : p.stock - q < ci.quantity := by omega
          simp [hstk']
        · have hpr' : p.price.isSome = false := by simpa using hpr
          simp [hpr']
      · have hact' : p.is_active = false := by simpa using hact
        simp [hact']
  · rwa [cartItemOK_decrement_ne hne]

/-- Running the checkout validation loop over pairwise-distinct, all-valid
cart rows succeeds: it snapshots every row in order, totals the
snapshots, decrements exactly the referenced stocks, and touches no
other product. -/
theorem processCart_spec (l : List CartItem) (ps : List Product)
    (hdist : l.Pairwise (fun a b => a.product_id ≠ b.product_id))
    (hok : ∀ ci ∈ l, cartItemOK ps ci = true) :
    ∃ ois total ps',
      processCart l ps = .ok (ois, total, ps') ∧
      ois = l.filterMap (cartLine ps) ∧
      total = (ois.map (fun oi => oi.unit_price * (oi.quantity : Rat))).sum ∧
      (∀ ci ∈ l, ∀ p, lookupProduct ps ci.product_id = some p →
        lookupProduct ps' ci.product_id =
          some { p with stock := p.stock - ci.quantity }) ∧
      (∀ x, (∀ ci ∈ l, ci.product_id ≠ x) →
        lookupProduct ps' x = lookupProduct ps x) := by
  induction l generalizing ps with
  | nil =>
    refine ⟨[], 0, ps, rfl, rfl, rfl, ?_, ?_⟩
    · intro ci h
      exact absurd h (List.not_mem_nil ci)
    · intro x _
      rfl
  | cons ci rest ih =>
    obtain ⟨hhead, hdist'⟩ := List.pairwise_cons.mp hdist
    have hciok := hok ci (List.mem_cons_self ci rest)
    unfold cartItemOK at hciok
    cases hl : lookupProduct ps ci.product_id with
    | none =>
      rw [hl] at hciok
      exact absurd hciok (by simp)
    | some p =>
      rw [hl] at hciok
      simp only [Bool.and_eq_true] at hciok
      obtain ⟨⟨hact, hstkb⟩, hprb⟩ := hciok
      have hstk : ¬ (p.stock < ci.quantity) := by simpa using hstkb
      obtain ⟨pr, hprice⟩ := Option.isSome_iff_exists.mp hprb
      have hok1 : ∀ cj ∈ rest,
          cartItemOK (decrementStock ps ci.product_id ci.quantity) cj =
            true := by
        intro cj hcj
        rw [cartItemOK_decrement_ne (Ne.symm (hhead cj hcj))]
        exact hok cj (List.mem_cons_of_mem _ hcj)
      obtain ⟨ois1, total1, ps', hrun, hois, htot, hstocks, hframe⟩ :=
        ih (decrementStock ps ci.product_id ci.quantity) hdist' hok1
      refine ⟨{ product_id := ci.product_id, quantity := ci.quantity,
                unit_price := pr, total_price := pr * (ci.quantity : Rat) }
                :: ois1,
              pr * (ci.quantity : Rat) + total1, ps', ?_, ?_, ?_, ?_, ?_⟩
      · simp only [processCart, hl, hact, Bool.not_true, Bool.false_eq_true,
          if_false, hstk, if_neg hstk, hprice, hrun]
      · simp only [List.filterMap_cons]
        have hline : cartLine ps ci =
            some { product_id := ci.product_id, quantity := ci.quantity,
                   unit_price := pr,
                   total_price := pr * (ci.quantity : Rat) } := by
          simp [cartLine, hl, hprice]
        rw [hline]
        rw [hois]
        rw [List.filterMap_congr (fun cj hcj =>
          cartLine_decrement_ne (Ne.symm (hhead cj hcj)))]
      · simp only [List.map_cons, List.sum_cons]
        rw [htot]
      · intro cj hcj p0 hp0
        rcases List.mem_cons.mp hcj with rfl | hcjr
        · rw [hl] at hp0
          have hp0' : p = p0 := Option.some.inj hp0
          subst hp0'
          rw [hframe cj.product_id (fun ck hck => Ne.symm (hhead ck hck))]
          rw [lookup_decrementStock_eq, hl]
          rfl
        · exact hstocks cj hcjr p0 (by
            rw [lookup_decrementStock_ne ci.quantity
              (Ne.symm (hhead cj hcjr))]
            exact hp0)
      · intro x hx
        rw [hframe x (fun ck hck => hx ck (List.mem_cons_of_mem _ hck))]
        exact lookup_decrementStock_ne ci.quantity
          (Ne.symm (hx ci (List.mem_cons_self ci rest)))

/-- C1: when the user's cart is non-empty, references pairwise-distinct
products (the (user, product) unique constraint), and every row passes
validation — product exists, active, priced, stock covers the quantity —
checkout succeeds: it appends exactly one order owned by the user whose
items snapshot the cart rows in row-id order, whose `total_amount` is the
sum of `unit_price * quantity` over the snapshots, decrements each
referenced product's stock by the row's quantity, and empties the cart. -/
theorem checkout_success (db : DB) (uid : Nat)
    (hne : userCart db uid ≠ [])
    (hdist : (userCart db uid).Pairwise
      (fun a b => a.product_id ≠ b.product_id))
    (hok : ∀ ci ∈ userCart db uid, cartItemOK db.products ci = true) :
    ∃ db' order,
      checkout_order db uid = .ok (db', order) ∧
      db'.orders = db.orders ++ [order] ∧
      order.user_id = uid ∧
      order.items = (userCart db uid).filterMap (cartLine db.products) ∧
      order.total_amount =
        (order.items.map (fun oi => oi.unit_price * (oi.quantity : Rat))).sum ∧
      (∀ ci ∈ userCart db uid, ∀ p,
        lookupProduct db.products ci.product_id = some p →
        lookupProduct db'.products ci.product_id =
          some { p with stock := p.stock - ci.quantity }) ∧
      userCart db' uid = [] := by
  obtain ⟨ois, total, ps', hrun, hois, htot, hstocks, -⟩ :=
    processCart_spec (userCart db uid) db.products hdist hok
  have hempty : (userCart db uid).isEmpty = false := by
    cases h : userCart db uid with
    | nil => exact absurd h hne
    | cons a l => rfl
  refine ⟨({ db with
             products := ps',
             orders := db.orders ++
               [{ id := db.next_id, user_id := uid, total_amount := total,
                  items := ois }],
             cart_items := db.cart_items.filter
               (fun c => !(c.user_id == uid)),
             next_id := db.next_id + 1 } : DB),
          ({ id := db.next_id, user_id := uid, total_amount := total,
             items := ois } : Order), ?_, rfl, rfl, ?_, ?_, ?_, ?_⟩
  · unfold checkout_order
    rw [hempty]
    simp only [Bool.false_eq_true, if_false, hrun]
  · exact hois
  · exact htot
  · intro ci hci p hp
    exact hstocks ci hci p hp
  · unfold userCart
    show sortById (List.filter _ (List.filter _ db.cart_items)) = []
    rw [List.filter_filter]
    have hnil : (db.cart_items.filter
        (fun c => (c.user_id == uid) && !(c.user_id == uid))) = [] := by
      simp
    rw [hnil]
    rfl

/-- If some cart row fails validation against the current products, the
checkout loop stops with a 400 — stock only shrinks along the loop, so a
row that is invalid at the start is still invalid when reached. -/
theorem processCart_err (l : List CartItem) (ps : List Product)
    (hq : ∀ ci ∈ l, 0 ≤ ci.quantity)
    (hbad : ∃ ci ∈ l, cartItemOK ps ci = false) :
    ∃ d, processCart l ps = .error (.badRequest d) := by
  induction l generalizing ps with
  | nil =>
    obtain ⟨ci, hmem, -⟩ := hbad
    exact absurd hmem (List.not_mem_nil ci)
  | cons ci rest ih =>
    by_cases hciok : cartItemOK ps ci = true
    · have hbadrest : ∃ cj ∈ rest,
          cartItemOK (decrementStock ps ci.product_id ci.quantity) cj =
            false := by
        obtain ⟨cj, hcj, hbadcj⟩ := hbad
        rcases List.mem_cons.mp hcj with rfl | hcjr
        · rw [hciok] at hbadcj
          cases hbadcj
        · exact ⟨cj, hcjr,
            cartItemOK_decrement_false
              (hq ci (List.mem_cons_self ci rest)) hbadcj⟩
      obtain ⟨d, hd⟩ := ih (decrementStock ps ci.product_id ci.quantity)
        (fun cj hcj => hq cj (List.mem_cons_of_mem _ hcj)) hbadrest
      unfold cartItemOK at hciok
      cases hl : lookupProduct ps ci.product_id with
      | none =>
        rw [hl] at hciok
        cases hciok
      | some p =>
        rw [hl] at hciok
        simp only [Bool.and_eq_true] at hciok
        obtain ⟨⟨hact, hstkb⟩, hprb⟩ := hciok
        have hstk : ¬ (p.stock < ci.quantity) := by simpa using hstkb
        obtain ⟨pr, hprice⟩ := Option.isSome_iff_exists.mp hprb
        exact ⟨d, by
          simp only [processCart, hl, hact, Bool.not_true,
            Bool.false_eq_true, if_false, hstk, if_neg hstk, hprice, hd]⟩
    · have hbadhead : cartItemOK ps ci = false := by
        simpa using hciok
      unfold cartItemOK at hbadhead
      cases hl : lookupProduct ps ci.product_id with
      | none =>
        exact ⟨"Product " ++ toString ci.product_id ++ " is unavailable",
          by simp only [processCart, hl]⟩
      | some p =>
        rw [hl] at hbadhead
        by_cases hact : p.is_active = true
        · by_cases hstk : p.stock < ci.quantity
          · exact ⟨"Not enough items of product " ++ p.name ++ " in stock",
              by simp [processCart, hl, hact, hstk]⟩
          · have hpr : p.price = none := by
              cases hp : p.price with
              | none => rfl
              | some pr =>
                simp [hact, hp, hstk] at hbadhead
            exact ⟨"Product " ++ p.name ++ " price is not set",
              by simp [processCart, hl, hact, hstk, hpr]⟩
        · have hact' : p.is_active = false := by simpa using hact
          exact ⟨"Product " ++ toString ci.product_id ++ " is unavailable",
            by simp [processCart, hl, hact']⟩

/-- C2: when the cart is empty or any cart row references a missing or
inactive product, exceeds its product's stock, or hits an unset price,
checkout fails with a 400 and — the exception firing before the single
commit — the database, its stock, cart and order tables included, is
exactly the pre-state and no order is created. -/
theorem checkout_failure (db : DB) (uid : Nat)
    (hq : ∀ ci ∈ userCart db uid, 0 ≤ ci.quantity)
    (hbad : userCart db uid = [] ∨
      ∃ ci ∈ userCart db uid, cartItemOK db.products ci = false) :
    (∃ d, checkout_order db uid = .error (.badRequest d)) ∧
    runCheckout db uid = (db, none) := by
  have herr : ∃ d, checkout_order db uid = .error (.badRequest d) := by
    rcases hbad with hemp | hbad
    · exact ⟨"Cart is empty", by simp [checkout_order, hemp]⟩
    · have hempty : (userCart db uid).isEmpty = false := by
        obtain ⟨ci, hci, -⟩ := hbad
        cases h : userCart db uid with
        | nil =>
          rw [h] at hci
          exact absurd hci (List.not_mem_nil ci)
        | cons a l => rfl
      obtain ⟨d, hd⟩ := processCart_err (userCart db uid) db.products hq hbad
      refine ⟨d, ?_⟩
      unfold checkout_order
      rw [hempty]
      simp only [Bool.false_eq_true, if_false, hd]
  obtain ⟨d, hd⟩ := herr
  refine ⟨⟨d, hd⟩, ?_⟩
  unfold runCheckout
  rw [hd]

/-- The spec's checkout scenario: cart [(X, qty 2, price 10),
(Y, qty 1, price 5)] with stock(X) = 5, stock(Y) = 1. -/
def C1db : DB :=
  { users := [], categories := [], orders := [], reviews := [],
    products := [{ id := 1, name := "X", price := some 10, stock := 5,
                   is_active := true, category_id := 1, seller_id := 1,
                   rating := 0 },
                 { id := 2, name := "Y", price := some 5, stock := 1,
                   is_active := true, category_id := 1, seller_id := 1,
                   rating := 0 }],
    cart_items := [{ id := 1, user_id := 1, product_id := 1, quantity := 2 },
                   { id := 2, user_id := 1, product_id := 2, quantity := 1 }],
    next_id := 3 }

/-- Witness for C1: the spec's concrete scenario checks out successfully
with the snapshot, total, stock-decrement and cart-emptying properties. -/
theorem checkout_success_witness :
    ∃ db' order,
      checkout_order C1db 1 = .ok (db', order) ∧
      db'.orders = C1db.orders ++ [order] ∧
      order.user_id = 1 ∧
      order.items = (userCart C1db 1).filterMap (cartLine C1db.products) ∧
      order.total_amount =
        (order.items.map (fun oi => oi.unit_price * (oi.quantity : Rat))).sum ∧
      (∀ ci ∈ userCart C1db 1, ∀ p,
        lookupProduct C1db.products ci.product_id = some p →
        lookupProduct db'.products ci.product_id =
          some { p with stock := p.stock - ci.quantity }) ∧
      userCart db' 1 = [] :=
  checkout_success C1db 1 (by decide) (by decide) (by decide)

/-- The spec's failing checkout scenario: the same cart, but stock(Y) = 0
so the cart's Y row exceeds the available stock. -/
def C2db : DB :=
  { users := [], categories := [], orders := [], reviews := [],
    products := [{ id := 1, name := "X", price := some 10, stock := 5,
                   is_active := true, category_id := 1, seller_id := 1,
                   rating := 0 },
                 { id := 2, name := "Y", price := some 5, stock := 0,
                   is_active := true, category_id := 1, seller_id := 1,
                   rating := 0 }],
    cart_items := [{ id := 1, user_id := 1, product_id := 1, quantity := 2 },
                   { id := 2, user_id := 1, product_id := 2, quantity := 1 }],
    next_id := 3 }

/-- Witness for C2: with stock(Y) = 0 the checkout fails with a 400 and
the database — stock(X) = 5 included — is exactly the pre-state. -/
theorem checkout_failure_witness :
    (∃ d, checkout_order C2db 1 = .error (.badRequest d)) ∧
    runCheckout C2db 1 = (C2db, none) :=
  checkout_failure C2db 1 (by decide) (Or.inr (by decide))
